import Mathlib

/-!
Shallow embedding of the pub/sub message-administration layer of
`src/code/zato-server/src/zato/server/service/internal/pubsub/message.py`,
together with the subscribe/publish/receive protocol exercised by
`src/code/zato-server/test/zato/pubsub/test_pubapi.py`.

Timestamps stored by the services are seconds-since-epoch with sub-second
precision (Python floats); they are modelled as rationals.  The helper
`datetime_from_ms` (from `zato.common.util.time_`, not part of the excerpt)
turns a milliseconds-since-epoch value into an ISO-8601 string; it is
modelled as the injective tagging `TimeStr.iso`, which keeps exactly the
information the claims need: whether a value was rendered as an ISO string,
as the empty string, or as None.
-/

namespace Zato

/-- Caller-facing form of one timestamp field: an ISO-8601 rendering of a
milliseconds-since-epoch value, the empty string `''`, or Python's `None`.
`iso` models `datetime_from_ms` from the spec's words (timestamps are
"presented as ISO-8601 with millisecond granularity externally"); the
function itself is outside the excerpt. -/
inductive TimeStr
  | iso (ms : ℚ)
  | emptyStr
  | null
deriving Repr, DecidableEq

/-- Python truthiness of an optional numeric field: `None` and `0` are falsy. -/
def truthyQ : Option ℚ → Bool
  | none => false
  | some v => v != 0

/-- One row of the `PubSubMessage` table (the GD store), with the columns the
excerpt's services read and write.  `data_head`/`data_head_short` stand for
the source's `data_prefix`/`data_prefix_short` columns. -/
structure GDMsgRow where
  cluster_id : Nat
  pub_msg_id : String
  topic_id : Nat
  pub_time : ℚ
  ext_pub_time : Option ℚ
  expiration_time : Option ℚ
  data : String
  data_head : String
  data_head_short : String
  size : Nat
  priority : Nat
  mime_type : String
  pub_correl_id : Option String
  in_reply_to : Option String
  expiration : Nat
deriving Repr, DecidableEq

/-- One row of the `PubSubTopic` table. -/
structure TopicRow where
  cluster_id : Nat
  id : Nat
  name : String
deriving Repr, DecidableEq

/-- One row of the `PubSubEndpointEnqueuedMessage` table: a per-subscriber
queue entry referencing a GD message by its `pub_msg_id`. -/
structure QueueRow where
  cluster_id : Nat
  pub_msg_id : String
  sub_key : String
  delivery_count : Nat
deriving Repr, DecidableEq

/-- The SQL-backed state the GD services touch. -/
structure GDStore where
  messages : List GDMsgRow
  topics : List TopicRow
  queue : List QueueRow
deriving Repr, DecidableEq

/-- Modelled from the spec: the `pubsub_message` query of
`zato.common.odb.query` (not in the excerpt) returns the one GD message keyed
by `(cluster_id, msg_id)`; `first()` yields it or nothing.  `Delete.handle`
runs the same filter pair inline (message.py lines 146-149). -/
def pubsub_message (store : GDStore) (cluster_id : Nat) (msg_id : String) :
    Option GDMsgRow :=
  store.messages.find? (fun m => m.cluster_id == cluster_id && m.pub_msg_id == msg_id)

/-- Domain and Python-level errors the embedded handlers can raise. -/
inductive ZErr
  | notFound
  | noResultFound
  | typeError
  | unboundLocalError
deriving Repr, DecidableEq

/-- Caller-facing view of a GD message as `GetFromTopicGD.handle` builds it:
the stored row with `pub_time`, `ext_pub_time` and `expiration_time`
re-rendered for output. -/
structure GDView where
  msg_id : String
  pub_time : TimeStr
  ext_pub_time : TimeStr
  expiration_time : TimeStr
  data : String
  size : Nat
  priority : Nat
  mime_type : String
deriving Repr, DecidableEq

/-- Embeds `GetFromTopicGD.handle` (message.py lines 61-73): look the message
up by `(cluster_id, msg_id)`; if present, set `pub_time` to
`datetime_from_ms(pub_time * 1000)`, set `ext_pub_time` and `expiration_time`
likewise when truthy and to `''` otherwise, and return the item; if absent,
raise `NotFound`. -/
def getFromTopicGD (store : GDStore) (cluster_id : Nat) (msg_id : String) :
    Except ZErr GDView :=
  match pubsub_message store cluster_id msg_id with
  | some item =>
      .ok { msg_id := item.pub_msg_id
            pub_time := .iso (item.pub_time * 1000)
            ext_pub_time :=
              if truthyQ item.ext_pub_time then .iso (item.ext_pub_time.getD 0 * 1000)
              else .emptyStr
            expiration_time :=
              if truthyQ item.expiration_time then .iso (item.expiration_time.getD 0 * 1000)
              else .emptyStr
            data := item.data
            size := item.size
            priority := item.priority
            mime_type := item.mime_type }
  | none => .error .notFound

/-- Input of `Has.handle`: SimpleIO requires `cluster_id` and `msg_id`. -/
structure HasInput where
  cluster_id : Nat
  msg_id : String
deriving Repr, DecidableEq

/-- Embeds `Has.handle` (message.py lines 127-134): an `exists()` query over
`PubSubMessage` filtered by `pub_msg_id == input.msg_id` and by
`cluster_id == self.server.cluster_id` — the server's own cluster id, not the
`cluster_id` of the request's input, which the handler never reads. -/
def has_handle (store : GDStore) (server_cluster_id : Nat) (input : HasInput) : Bool :=
  store.messages.any
    (fun m => m.pub_msg_id == input.msg_id && m.cluster_id == server_cluster_id)

/-- Observable events of `Delete.handle` in order: lock acquisition, the row
deletion, the commit, the lock release. -/
inductive Ev
  | acquire (name : String)
  | deleteMsg (id : String)
  | commit
  | release (name : String)
deriving Repr, DecidableEq

/-- The topic query of `Delete.handle` (message.py lines 154-157): all
`PubSubTopic` rows with the given cluster and id; `.one()` demands exactly
one. -/
def topic_query (store : GDStore) (cluster_id : Nat) (topic_id : Nat) : List TopicRow :=
  store.topics.filter (fun t => t.cluster_id == cluster_id && t.id == topic_id)

/-- Store effect of `session.delete(ps_msg)` followed by `session.commit()`
in `Delete.handle`: the message row keyed by `(cluster_id, msg_id)` is gone,
and with it every queue entry referencing the message — the cascade itself is
configured in the ORM model outside the excerpt and is modelled from the spec
("deletes the message and cascades to queue entries"). -/
def delete_apply (store : GDStore) (cluster_id : Nat) (msg_id : String) : GDStore :=
  { store with
    messages := store.messages.filter
      (fun m => !(m.cluster_id == cluster_id && m.pub_msg_id == msg_id))
    queue := store.queue.filter (fun q => q.pub_msg_id != msg_id) }

/-- Embeds `Delete.handle` (message.py lines 144-165): find the message by
`(cluster_id, msg_id)` or raise `NotFound`; resolve its owning topic with
`.one()`; under the lock named `'zato.pubsub.publish.' + topic.name` delete
the row (with its cascade, `delete_apply`) and commit, then release the lock.
Returns the raised error or the event trace, paired with the resulting store
(unchanged on error). -/
def delete_handle (store : GDStore) (cluster_id : Nat) (msg_id : String) :
    Except ZErr (List Ev) × GDStore :=
  match pubsub_message store cluster_id msg_id with
  | none => (.error .notFound, store)
  | some ps_msg =>
      match topic_query store cluster_id ps_msg.topic_id with
      | [ps_topic] =>
          let lock_name := "zato.pubsub.publish." ++ ps_topic.name
          (.ok [.acquire lock_name, .deleteMsg msg_id, .commit, .release lock_name],
           delete_apply store cluster_id msg_id)
      | _ => (.error .noResultFound, store)

/-- Configuration the update path reads: the two preview lengths and the
defaults used by `get_expiration`/`get_priority`. -/
structure PubSubCfg where
  data_head_len : Nat
  data_head_short_len : Nat
  default_priority : Nat
  default_expiration : Nat
deriving Repr, DecidableEq

/-- Input of `_Update.handle`: required `cluster_id`, `msg_id`, `mime_type`;
optional `data`, `expiration`, `correl_id`, `in_reply_to`, `priority`,
`exp_from_now`. -/
structure UpdateInput where
  cluster_id : Nat
  msg_id : String
  mime_type : String
  data : String
  expiration : Option Nat
  correl_id : Option String
  in_reply_to : Option String
  priority : Option Nat
  exp_from_now : Bool
deriving Repr, DecidableEq

/-- Modelled from the spec: `get_expiration` (from `zato.server.pubsub`, not
in the excerpt) resolves the requested expiration in milliseconds, falling
back to the configured default; "`0`/absent means never expires". -/
def get_expiration (cfg : PubSubCfg) (input : UpdateInput) : Nat :=
  input.expiration.getD cfg.default_expiration

/-- Modelled from the spec: `get_priority` (from `zato.server.pubsub`, not in
the excerpt) resolves the requested priority, falling back to the configured
default ("priority: integer, default from configuration"). -/
def get_priority (cfg : PubSubCfg) (input : UpdateInput) : Nat :=
  input.priority.getD cfg.default_priority

/-- Embeds the field-overwrite block of `_Update.handle` (message.py lines
230-248), run when the target item was found: overwrite data, previews, size,
expiration, priority, correlation, reply-to and mime type; then, if the
resolved expiration is truthy, set `expiration_time` to
`from_ + expiration / 1000.0` where `from_` is `utcnow_as_ms()` (`now`) when
`exp_from_now` is set and the item's `pub_time` otherwise, and set it to
`None` when the resolved expiration is `0`. -/
def update_item_fields (cfg : PubSubCfg) (input : UpdateInput) (now : ℚ)
    (item : GDMsgRow) : GDMsgRow :=
  let item :=
    { item with
      data := input.data
      data_head := input.data.take cfg.data_head_len
      data_head_short := input.data.take cfg.data_head_short_len
      size := input.data.length
      expiration := get_expiration cfg input
      priority := get_priority cfg input
      pub_correl_id := input.correl_id
      in_reply_to := input.in_reply_to
      mime_type := input.mime_type }
  if item.expiration ≠ 0 then
    let from_ : ℚ := if input.exp_from_now then now else item.pub_time
    { item with expiration_time := some (from_ + (item.expiration : ℚ) / 1000) }
  else
    { item with expiration_time := none }

/-- Output payload of `_Update.handle`. -/
structure UpdatePayload where
  found : Bool
  msg_id : String
  size : Option Nat
  expiration_time : Option TimeStr
deriving Repr, DecidableEq

/-- Embeds `UpdateGD.handle` (`_Update.handle` with `_message_update_has_gd =
True`, message.py lines 217-276).  Line 220 assigns `session` from
`self.odb.session()`, then line 224 runs `item = self._get_item(input)`:
`UpdateGD._get_item(self, input, session)` takes two arguments besides
`self`, so the one-argument call raises `TypeError` before the store is
touched, and the handler never reaches the soft-miss branch nor the overwrite
block.  (Were the arity repaired, `UpdateGD._get_item` has no return
statement, so it returns `None` and every update would report
`found=False`.) -/
def updateGD_handle (_store : GDStore) (_input : UpdateInput) :
    Except ZErr UpdatePayload :=
  .error .typeError

/-- Embeds `UpdateNonGD.handle` (`_Update.handle` with
`_message_update_has_gd = False`).  Line 220 reads
`session = self.odb.session() if self._message_update_has_gd else session`:
in the non-GD branch the local `session` is read before any assignment, so
Python raises `UnboundLocalError` at once.  (The `UpdateNonGD._get_item` and
`_save_item` bodies are the bare names `zzz` and `qqq`, which would raise
`NameError`, but they are never reached.) -/
def updateNonGD_handle (_input : UpdateInput) : Except ZErr UpdatePayload :=
  .error .unboundLocalError

/-- One record of the per-server in-memory (non-GD) backlog, with the
internal field names the excerpt reads: `pub_msg_id`, `pub_correl_id`,
`pub_time` (epoch seconds), `expiration_time`, `published_by_id`. -/
structure NonGDRecord where
  pub_msg_id : String
  pub_correl_id : Option String
  pub_time : ℚ
  expiration_time : Option ℚ
  published_by_id : Nat
  data : String
deriving Repr, DecidableEq

/-- The per-process backlog, indexed by `pub_msg_id`. -/
abbrev Backlog : Type := List NonGDRecord

/-- Public view of a non-GD message as `GetFromServerTopicNonGD.handle`
builds it: internal names renamed (`pub_msg_id` to `msg_id`, `pub_correl_id`
to `correl_id`, `published_by_id` to `endpoint_id` plus the resolved
`endpoint_name`) and timestamps converted to ISO form; `expiration_time` is
absent (`none`) when the stored value was falsy, because the handler only
re-inserts the popped key when it is truthy. -/
structure NonGDView where
  msg_id : String
  correl_id : Option String
  pub_time : TimeStr
  expiration_time : Option TimeStr
  endpoint_id : Nat
  endpoint_name : String
  data : String
deriving Repr, DecidableEq

/-- Embeds `GetFromServerTopicNonGD.handle` (message.py lines 83-100).
`self.pubsub.sync_backlog.get_message_by_id` is not part of the excerpt and
is modelled from the spec: "`get_by_id(msg_id)` → Message or `NotFound`".
The handler deep-copies the record and performs every rename and timestamp
conversion on the copy, so the backlog itself is returned unchanged; the
endpoint directory (`self.pubsub.get_endpoint_by_id(...).name`) is the
read-only collaborator `dir`. -/
def getFromServerTopicNonGD (dir : Nat → String) (backlog : Backlog)
    (msg_id : String) : Except ZErr NonGDView × Backlog :=
  match backlog.find? (fun r => r.pub_msg_id == msg_id) with
  | none => (.error .notFound, backlog)
  | some rec =>
      let view : NonGDView :=
        { msg_id := rec.pub_msg_id
          correl_id := rec.pub_correl_id
          pub_time := .iso (rec.pub_time * 1000)
          expiration_time :=
            if truthyQ rec.expiration_time then
              some (.iso (rec.expiration_time.getD 0 * 1000))
            else none
          endpoint_id := rec.published_by_id
          endpoint_name := dir rec.published_by_id
          data := rec.data }
      (.ok view, backlog)

/-- One published message of the client protocol. -/
structure PSMsg where
  msg_id : String
  data : String
deriving Repr, DecidableEq

/-- Modelled from the spec: the per-(subscriber, topic) protocol state — the
subscription toggle and the subscriber's queue of published messages, kept in
publish order (oldest first). -/
structure TopicState where
  subscribed : Bool
  queue : List PSMsg
deriving Repr, DecidableEq

/-- Modelled from the spec: `Publish(data)` stores the message, appending it
to the subscriber's queue. -/
def ps_publish (st : TopicState) (m : PSMsg) : TopicState :=
  { st with queue := st.queue ++ [m] }

/-- A sequence of publishes, in order. -/
def ps_publish_all (st : TopicState) (ms : List PSMsg) : TopicState :=
  ms.foldl ps_publish st

/-- Modelled from the spec: `Receive()` returns the queued messages of an
active subscription in most-recently-published-first (LIFO) order; without a
subscription it fails (the test records a "No sub for endpoint" error). -/
def ps_receive (st : TopicState) : Option (List PSMsg) :=
  if st.subscribed then some st.queue.reverse else none

/-- Modelled from the spec: the subscription state of one (subscriber
credential, topic) pair — the sub_keys currently held (empty means
unsubscribed; a correct state never holds more than one). -/
structure SubsState where
  subs : List String
deriving Repr, DecidableEq

/-- Response of the subscribe/unsubscribe endpoints: the `{sub_key,
queue_depth}` object of a fresh subscription, or the empty dict `{}`. -/
inductive SubResp
  | info (sub_key : String) (queue_depth : Nat)
  | empty
deriving Repr, DecidableEq

/-- Modelled from the spec: `Subscribe` creates a subscription and returns
`{sub_key, queue_depth}` when none exists, and succeeds with the empty result
`{}` — creating nothing — when one already does. -/
def ps_subscribe (st : SubsState) (fresh : String) : SubResp × SubsState :=
  if st.subs.isEmpty then (.info fresh 0, ⟨[fresh]⟩) else (.empty, st)

/-- Modelled from the spec: `Unsubscribe` removes any subscription and always
returns the empty result `{}`. -/
def ps_unsubscribe (_st : SubsState) : SubResp × SubsState :=
  (.empty, ⟨[]⟩)

/-- A GD message row under cluster 2, used as a concrete input. -/
def sampleMsgCluster2 : GDMsgRow :=
  { cluster_id := 2, pub_msg_id := "m1", topic_id := 1, pub_time := 10,
    ext_pub_time := none, expiration_time := none, data := "d",
    data_head := "d", data_head_short := "d", size := 1, priority := 5,
    mime_type := "text/plain", pub_correl_id := none, in_reply_to := none,
    expiration := 0 }

/-- A store holding only `sampleMsgCluster2`. -/
def sampleStoreCluster2 : GDStore :=
  { messages := [sampleMsgCluster2], topics := [], queue := [] }

/-- A GD message row under cluster 1 with a set expiration, used as a
concrete input. -/
def sampleMsg2 : GDMsgRow :=
  { cluster_id := 1, pub_msg_id := "m2", topic_id := 7, pub_time := 100,
    ext_pub_time := none, expiration_time := some 160, data := "hello",
    data_head := "hello", data_head_short := "h", size := 5, priority := 5,
    mime_type := "text/plain", pub_correl_id := none, in_reply_to := none,
    expiration := 60000 }

/-- The topic owning `sampleMsg2`. -/
def sampleTopic : TopicRow := { cluster_id := 1, id := 7, name := "demo" }

/-- A store holding `sampleMsg2`, its topic, one queue entry referencing it
and one referencing another message. -/
def sampleStore2 : GDStore :=
  { messages := [sampleMsg2]
    topics := [sampleTopic]
    queue := [{ cluster_id := 1, pub_msg_id := "m2", sub_key := "sk1", delivery_count := 1 },
              { cluster_id := 1, pub_msg_id := "other", sub_key := "sk2", delivery_count := 0 }] }

/-- A non-GD backlog record, used as a concrete input. -/
def sampleNonGD : NonGDRecord :=
  { pub_msg_id := "n1", pub_correl_id := some "c1", pub_time := 20,
    expiration_time := some 50, published_by_id := 3, data := "payload" }

/-- A backlog holding only `sampleNonGD`. -/
def sampleBacklog : Backlog := [sampleNonGD]

/-- Claim C1: the spec's update contract (soft-miss `found=false` on a
missing message, overwrite and `found=true` on an existing one) is the
documented intent, but the code can honour neither half: `UpdateGD.handle`
raises `TypeError` on every request (the one-argument call
`self._get_item(input)` does not fit `UpdateGD._get_item(self, input,
session)`), and `UpdateNonGD.handle` raises `UnboundLocalError` on every
request (line 220 reads the local `session` before assignment), so no update
ever returns a payload at all. -/
theorem update_handles_always_raise (store : GDStore) (input : UpdateInput) :
    updateGD_handle store input = .error .typeError ∧
    updateNonGD_handle input = .error .unboundLocalError :=
  ⟨rfl, rfl⟩

/-- Claim C2: for every store, cluster and msg_id, the GD get raises
`NotFound` exactly when the `(cluster_id, msg_id)` lookup is empty, and
otherwise returns the stored message with `pub_time` translated from epoch
seconds to an ISO rendering of `pub_time * 1000` milliseconds, with
`ext_pub_time` and `expiration_time` likewise translated when present and
rendered as the empty string — never as None/null — when absent. -/
theorem getFromTopicGD_contract (store : GDStore) (c : Nat) (id : String) :
    (pubsub_message store c id = none → getFromTopicGD store c id = .error .notFound) ∧
    ∀ item, pubsub_message store c id = some item →
      ∃ out, getFromTopicGD store c id = .ok out ∧
        out.msg_id = item.pub_msg_id ∧
        out.data = item.data ∧
        out.size = item.size ∧
        out.pub_time = .iso (item.pub_time * 1000) ∧
        (∀ v, item.ext_pub_time = some v → v ≠ 0 → out.ext_pub_time = .iso (v * 1000)) ∧
        (item.ext_pub_time = none → out.ext_pub_time = .emptyStr) ∧
        out.ext_pub_time ≠ .null ∧
        (∀ v, item.expiration_time = some v → v ≠ 0 →
          out.expiration_time = .iso (v * 1000)) ∧
        (item.expiration_time = none → out.expiration_time = .emptyStr) ∧
        out.expiration_time ≠ .null := by
  constructor
  · intro h
    simp [getFromTopicGD, h]
  · intro item h
    simp only [getFromTopicGD, h]
    refine ⟨_, rfl, rfl, rfl, rfl, rfl, ?_, ?_, ?_, ?_, ?_, ?_⟩
    · intro v hv hne
      have ht : truthyQ (some v) = true := by simpa [truthyQ, bne_iff_ne] using hne
      simp [hv, ht]
    · intro h0
      simp [truthyQ, h0]
    · cases h' : truthyQ item.ext_pub_time <;> simp [h']
    · intro v hv hne
      have ht : truthyQ (some v) = true := by simpa [truthyQ, bne_iff_ne] using hne
      simp [hv, ht]
    · intro h0
      simp [truthyQ, h0]
    · cases h' : truthyQ item.expiration_time <;> simp [h']

/-- Concrete instance of the GD get contract: the found branch of
`getFromTopicGD_contract` applied to `sampleStore2` and message `m2`. -/
theorem getFromTopicGD_contract_witness :
    ∃ out, getFromTopicGD sampleStore2 1 "m2" = .ok out ∧
      out.msg_id = sampleMsg2.pub_msg_id ∧
      out.data = sampleMsg2.data ∧
      out.pub_time = .iso (sampleMsg2.pub_time * 1000) := by
  obtain ⟨out, h1, h2, h3, _, h5, _⟩ :=
    (getFromTopicGD_contract sampleStore2 1 "m2").2 sampleMsg2 rfl
  exact ⟨out, h1, h2, h3, h5⟩

/-- Claim C3: the GD delete raises `NotFound` and returns the store unchanged
when the `(cluster_id, msg_id)` lookup is empty; when the message exists and
its topic resolves, it acquires the lock named from the topic's name, deletes
the message and every queue entry referencing it, commits before releasing
the lock, leaves the topics untouched, and a subsequent get of that msg_id
raises `NotFound`. -/
theorem delete_handle_contract (store : GDStore) (c : Nat) (id : String) :
    (pubsub_message store c id = none →
      delete_handle store c id = (.error .notFound, store)) ∧
    ∀ m t, pubsub_message store c id = some m →
      topic_query store c m.topic_id = [t] →
      ∃ store',
        delete_handle store c id =
          (.ok [.acquire ("zato.pubsub.publish." ++ t.name), .deleteMsg id, .commit,
                .release ("zato.pubsub.publish." ++ t.name)], store') ∧
        pubsub_message store' c id = none ∧
        getFromTopicGD store' c id = .error .notFound ∧
        (∀ q ∈ store'.queue, q.pub_msg_id ≠ id) ∧
        store'.topics = store.topics := by
  constructor
  · intro h
    simp [delete_handle, h]
  · intro m t hm ht
    have hnone : pubsub_message (delete_apply store c id) c id = none := by
      unfold pubsub_message delete_apply
      apply List.find?_eq_none.mpr
      intro x hx
      have h3 := (List.mem_filter.mp hx).2
      have hx2 : (x.cluster_id == c && x.pub_msg_id == id) = false := by
        cases hb : (x.cluster_id == c && x.pub_msg_id == id)
        · rfl
        · rw [hb] at h3
          simp at h3
      simp [hx2]
    refine ⟨delete_apply store c id, ?_, hnone, ?_, ?_, rfl⟩
    · simp only [delete_handle, hm, ht]
    · simp [getFromTopicGD, hnone]
    · intro q hq
      have := (List.mem_filter.mp hq).2
      simpa using this

/-- Concrete instance of the GD delete contract: the found branch of
`delete_handle_contract` applied to `sampleStore2`, whose message `m2` is
referenced by one of two queue entries. -/
theorem delete_handle_contract_witness :
    ∃ store',
      delete_handle sampleStore2 1 "m2" =
        (.ok [.acquire ("zato.pubsub.publish." ++ sampleTopic.name), .deleteMsg "m2",
              .commit, .release ("zato.pubsub.publish." ++ sampleTopic.name)], store') ∧
      pubsub_message store' 1 "m2" = none ∧
      getFromTopicGD store' 1 "m2" = .error .notFound ∧
      (∀ q ∈ store'.queue, q.pub_msg_id ≠ "m2") ∧
      store'.topics = sampleStore2.topics :=
  (delete_handle_contract sampleStore2 1 "m2").2 sampleMsg2 sampleTopic rfl rfl

/-- Claim C4 counterexample: `sampleStoreCluster2` holds message `m1` only
under cluster 2, and the server's own cluster is 2; a `Has` request naming
input cluster 1 still reports `found=true`, although no message `m1` exists
under the input's cluster 1 — the handler filters on the server's cluster_id
and ignores the input's. -/
theorem has_handle_cluster_mismatch_cex :
    has_handle sampleStoreCluster2 2 { cluster_id := 1, msg_id := "m1" } = true ∧
    ¬ ∃ m ∈ sampleStoreCluster2.messages, m.pub_msg_id = "m1" ∧ m.cluster_id = 1 := by
  constructor
  · rfl
  · simp [sampleStoreCluster2, sampleMsgCluster2]

/-- Claim C4 as amended: `Has` returns `found=true` exactly when a GD message
whose `pub_msg_id` equals the input's msg_id exists under the server's
cluster_id (the input's cluster_id is accepted but not consulted); only the
GD message table is examined, so non-GD messages are never consulted. -/
theorem has_handle_checks_server_cluster (store : GDStore) (sc : Nat)
    (input : HasInput) :
    has_handle store sc input = true ↔
      ∃ m ∈ store.messages, m.pub_msg_id = input.msg_id ∧ m.cluster_id = sc := by
  simp [has_handle, List.any_eq_true, Bool.and_eq_true, beq_iff_eq]

/-- Claim C5: the field-overwrite algorithm of `_Update.handle` (the block an
update applies to a found message) sets `expiration_time` to the base time
plus the resolved expiration converted from milliseconds to seconds — the
base being `now` when `exp_from_now` is set and the message's (unchanged)
`pub_time` otherwise — whenever the resolved expiration is non-zero, and
unsets it (None) whenever the resolved expiration is zero, so
`expiration_time` is never set independently of `expiration`. -/
theorem update_expiration_invariant (cfg : PubSubCfg) (input : UpdateInput)
    (now : ℚ) (item : GDMsgRow) :
    (update_item_fields cfg input now item).expiration_time =
      (if get_expiration cfg input ≠ 0 then
        some ((if input.exp_from_now then now else item.pub_time) +
          (get_expiration cfg input : ℚ) / 1000)
      else none) ∧
    (update_item_fields cfg input now item).expiration = get_expiration cfg input ∧
    (update_item_fields cfg input now item).pub_time = item.pub_time := by
  rcases eq_or_ne (get_expiration cfg input) 0 with h0 | h0 <;>
    rcases hE : input.exp_from_now <;>
      simp [update_item_fields, h0, hE]

/-- Claim C6: for every backlog and msg_id, the non-GD local get raises
`NotFound` exactly when the backlog lookup is empty, and otherwise returns
the record reshaped for the public contract: `pub_msg_id` renamed to
`msg_id`, `pub_correl_id` to `correl_id`, `published_by_id` to `endpoint_id`
with the resolved `endpoint_name` added, and `pub_time`/`expiration_time`
converted from epoch seconds to ISO renderings of their
millisecond values. -/
theorem getFromServerTopicNonGD_contract (dir : Nat → String) (backlog : Backlog)
    (id : String) :
    (backlog.find? (fun r => r.pub_msg_id == id) = none →
      (getFromServerTopicNonGD dir backlog id).1 = .error .notFound) ∧
    ∀ rec, backlog.find? (fun r => r.pub_msg_id == id) = some rec →
      ∃ view, (getFromServerTopicNonGD dir backlog id).1 = .ok view ∧
        view.msg_id = rec.pub_msg_id ∧
        view.correl_id = rec.pub_correl_id ∧
        view.endpoint_id = rec.published_by_id ∧
        view.endpoint_name = dir rec.published_by_id ∧
        view.pub_time = .iso (rec.pub_time * 1000) ∧
        (∀ v, rec.expiration_time = some v → v ≠ 0 →
          view.expiration_time = some (.iso (v * 1000))) ∧
        view.data = rec.data := by
  constructor
  · intro h
    simp [getFromServerTopicNonGD, h]
  · intro rec h
    simp only [getFromServerTopicNonGD, h]
    refine ⟨_, rfl, rfl, rfl, rfl, rfl, rfl, ?_, rfl⟩
    intro v hv hne
    have ht : truthyQ (some v) = true := by simpa [truthyQ, bne_iff_ne] using hne
    simp [hv, ht]

/-- Concrete instance of the non-GD get contract: the found branch of
`getFromServerTopicNonGD_contract` applied to `sampleBacklog` and message
`n1`. -/
theorem getFromServerTopicNonGD_contract_witness :
    ∃ view, (getFromServerTopicNonGD (fun _ => "endpoint1") sampleBacklog "n1").1 =
        .ok view ∧
      view.msg_id = sampleNonGD.pub_msg_id ∧
      view.correl_id = sampleNonGD.pub_correl_id ∧
      view.endpoint_name = "endpoint1" ∧
      view.pub_time = .iso (sampleNonGD.pub_time * 1000) := by
  obtain ⟨view, h1, h2, h3, _, h5, h6, _⟩ :=
    (getFromServerTopicNonGD_contract (fun _ => "endpoint1") sampleBacklog "n1").2
      sampleNonGD rfl
  exact ⟨view, h1, h2, h3, h5, h6⟩

/-- Claim C7: the non-GD local get never mutates the backlog — every rename
and timestamp conversion happens on a deep copy, so the store coming out of
the read is exactly the store that went in. -/
theorem getFromServerTopicNonGD_preserves_backlog (dir : Nat → String)
    (backlog : Backlog) (id : String) :
    (getFromServerTopicNonGD dir backlog id).2 = backlog := by
  cases h : backlog.find? (fun r => r.pub_msg_id == id) <;>
    simp [getFromServerTopicNonGD, h]

/-- Helper: a sequence of publishes appends the published messages, in
order, to the subscriber's queue, and leaves the subscription toggle
unchanged. -/
theorem ps_publish_all_queue (ms : List PSMsg) (st : TopicState) :
    ps_publish_all st ms = { st with queue := st.queue ++ ms } := by
  induction ms generalizing st with
  | nil => simp [ps_publish_all]
  | cons m ms ih =>
      show ps_publish_all (ps_publish st m) ms = _
      rw [ih]
      simp [ps_publish]

/-- Claim C8: for a subscriber with an active subscription, after any
sequence of publishes ending in message `m`, a receive call returns a batch
whose first element is `m` — the most recently published message comes first
(LIFO over the returned batch). -/
theorem ps_receive_newest_first (q ms : List PSMsg) (m : PSMsg) :
    ∃ batch, ps_receive (ps_publish_all ⟨true, q⟩ (ms ++ [m])) = some batch ∧
      batch.head? = some m := by
  rw [ps_publish_all_queue]
  refine ⟨_, rfl, ?_⟩
  simp [List.reverse_append]

/-- Claim C9: unsubscribing twice in a row returns the empty result both
times with no error; subscribing from the unsubscribed state returns the
subscription info, and subscribing again returns the empty result and leaves
the subscription state exactly as it was — one sub_key, no duplicate. -/
theorem subscribe_unsubscribe_idempotent (st : SubsState) (k1 k2 : String) :
    (ps_unsubscribe st).1 = .empty ∧
    (ps_unsubscribe (ps_unsubscribe st).2).1 = .empty ∧
    (ps_subscribe (ps_unsubscribe st).2 k1).1 = .info k1 0 ∧
    (ps_subscribe (ps_subscribe (ps_unsubscribe st).2 k1).2 k2).1 = .empty ∧
    (ps_subscribe (ps_subscribe (ps_unsubscribe st).2 k1).2 k2).2 =
      (ps_subscribe (ps_unsubscribe st).2 k1).2 ∧
    ((ps_subscribe (ps_unsubscribe st).2 k1).2).subs = [k1] := by
  refine ⟨rfl, rfl, rfl, rfl, rfl, rfl⟩

end Zato
